import Mathlib

set_option maxRecDepth 8000

/-
Shallow embedding of the FetiiBot backend (src/index.ts): sheet
normalization, relational merge, temporal feature derivation, vector-store
construction, and the upload / chat2 request handlers.

Modelling conventions:
- JS scalar values appearing in sheet rows and request bodies are `JVal`
  (null, undefined, number, string).  JS numbers are modelled as exact
  integers: every numeric value the claims touch (spreadsheet date serials,
  ages, passenger counts, epoch milliseconds) is integral; IEEE-754
  fractional values and NaN are outside the model, and no claim depends on
  them.
- A JS object is a `Row`: an insertion-ordered association list with unique
  keys.  Property write keeps the position of an existing key (as JS does).
- `new Date(v)` for a string argument is the platform date-string parse; it
  is abstracted as a parameter `pd : String -> JSDate`.  A `JSDate` is
  `Option Int`: `some t` is a valid date with integral time value t in
  milliseconds since the epoch, `none` is an Invalid Date (NaN time value).
- Local-time getters (getFullYear, getMonth, getDate, getDay, getHours) use
  a fixed timezone offset `tz` in minutes (DST is abstracted away; the
  counterexamples instantiate tz = 0, i.e. a UTC server).
-/

/-- A JavaScript scalar value as it occurs in parsed sheet rows and JSON
request bodies. -/
inductive JVal where
  | vnull : JVal
  | vundef : JVal
  | vnum : Int → JVal
  | vstr : String → JVal
deriving DecidableEq

/-- A JS object: insertion-ordered key/value pairs. -/
abbrev Row : Type := List (String × JVal)

/-- JS strict equality (===) restricted to the modelled scalar values:
equal type and equal value.  (NaN and signed zeros are outside the model.) -/
def strictEq (a b : JVal) : Bool :=
  decide (a = b)

/-- JS property read: value of the first binding of k, undefined if absent. -/
def objGet : Row → String → JVal
  | [], _ => JVal.vundef
  | (k2, v2) :: r, k => if k2 = k then v2 else objGet r k

/-- JS property write on a copy: replaces the value at an existing key in
place, appends the key otherwise.  This is the effect of both
spread-then-assign and bracket assignment on the modelled objects. -/
def objSet : Row → String → JVal → Row
  | [], k, v => [(k, v)]
  | (k2, v2) :: r, k, v => if k2 = k then (k, v) :: r else (k2, v2) :: objSet r k v

/-- JS truthiness of the modelled scalars: null, undefined, 0 and the empty
string are falsy. -/
def truthy : JVal → Bool
  | JVal.vnull => false
  | JVal.vundef => false
  | JVal.vnum q => decide (q ≠ 0)
  | JVal.vstr s => decide (s ≠ "")

/-- The JS expression v || null, as used on each derived temporal field. -/
def jsOr (v : JVal) : JVal :=
  if truthy v then v else JVal.vnull

/-- Character class of the regex whitespace \s, which coincides with the set
removed by String.prototype.trim (ECMAScript WhiteSpace plus
LineTerminator). -/
def isJsWS (c : Char) : Bool :=
  c == ' ' || c == '\t' || c == '\n' || c == '\r' ||
  c == Char.ofNat 11 || c == Char.ofNat 12 || c == Char.ofNat 0xA0 ||
  c == Char.ofNat 0x1680 ||
  (decide (0x2000 ≤ c.toNat) && decide (c.toNat ≤ 0x200A)) ||
  c == Char.ofNat 0x2028 || c == Char.ofNat 0x2029 || c == Char.ofNat 0x202F ||
  c == Char.ofNat 0x205F || c == Char.ofNat 0x3000 || c == Char.ofNat 0xFEFF

/-- One pass of replace(/\s+/g, "_"): the flag records whether the scan is
inside a whitespace run whose single underscore was already emitted. -/
def collapseGo : Bool → List Char → List Char
  | _, [] => []
  | inRun, c :: cs =>
    if isJsWS c then
      if inRun then collapseGo true cs else '_' :: collapseGo true cs
    else
      c :: collapseGo false cs

/-- replace(/\s+/g, "_"): every maximal whitespace run becomes one
underscore. -/
def collapseWS (l : List Char) : List Char :=
  collapseGo false l

/-- String.prototype.trim on a character list: drop leading and trailing
whitespace. -/
def trimChars (l : List Char) : List Char :=
  ((l.dropWhile isJsWS).reverse.dropWhile isJsWS).reverse

/-- The per-key normalization k.trim().replace(/\s+/g, "_") from
standardizeKeys (index.ts line 43). -/
def stdKey (k : String) : String :=
  String.mk (collapseWS (trimChars k.data))

/-- standardizeKeys (index.ts lines 39-46): rebuild every row with
standardized keys, in key-enumeration order. -/
def standardizeKeys (arr : List Row) : List Row :=
  arr.map (fun row => row.foldl (fun acc p => objSet acc (stdKey p.1) p.2) [])

/-- The check-in lookup inside mergeSheets (index.ts lines 60-61): value of
checkin ? checkin.User_ID : null for the first check-in row whose Trip_ID
is strictly equal to the given trip row Trip_ID. -/
def firstCheckinUser (checkedInData : List Row) (trip : Row) : JVal :=
  match checkedInData.find? (fun c => strictEq (objGet c "Trip_ID") (objGet trip "Trip_ID")) with
  | some c => objGet c "User_ID"
  | none => JVal.vnull

/-- The demographic lookup inside mergeSheets (index.ts lines 65-69): value
of userDemo ? userDemo.Age : null for the first demographic row whose
User_ID is strictly equal to the given check-in user id. -/
def firstDemoAge (demographicsData : List Row) (cu : JVal) : JVal :=
  match demographicsData.find? (fun d => strictEq (objGet d "User_ID") cu) with
  | some d => objGet d "Age"
  | none => JVal.vnull

/-- Body of mergeSheets (index.ts lines 54-71) once all three arguments are
actual arrays: standardize the three sheets, attach checkedInUserID from
the first matching check-in row, then attach Age from the first matching
demographic row. -/
def mergeRows (trips checkedIn demographics : List Row) : List Row :=
  let tripsData := standardizeKeys trips
  let checkedInData := standardizeKeys checkedIn
  let demographicsData := standardizeKeys demographics
  let tripsWithCheckin := tripsData.map (fun trip =>
    objSet trip "checkedInUserID" (firstCheckinUser checkedInData trip))
  tripsWithCheckin.map (fun trip =>
    objSet trip "Age" (firstDemoAge demographicsData (objGet trip "checkedInUserID")))

/-- Message of the TypeError thrown by arr.map when arr is null, as happens
when a sheet cast hides a null from readSheetCaseInsensitive. -/
def nullMapMsg : String :=
  "TypeError: Cannot read properties of null"

/-- mergeSheets as called from the upload handler: the three arguments are
the (possibly null) results of readSheetCaseInsensitive, passed through
type casts; standardizeKeys dereferences each, so a null argument throws. -/
def mergeSheets (trips checkedIn demographics : Option (List Row)) :
    Except String (List Row) :=
  match trips with
  | none => Except.error nullMapMsg
  | some ts =>
    match checkedIn with
    | none => Except.error nullMapMsg
    | some cs =>
      match demographics with
      | none => Except.error nullMapMsg
      | some ds => Except.ok (mergeRows ts cs ds)

instance (ε α : Type) [DecidableEq ε] [DecidableEq α] : DecidableEq (Except ε α) :=
  fun a b =>
    match a, b with
    | Except.ok x, Except.ok y =>
      if h : x = y then isTrue (by rw [h]) else isFalse (by simp [h])
    | Except.error x, Except.error y =>
      if h : x = y then isTrue (by rw [h]) else isFalse (by simp [h])
    | Except.ok _, Except.error _ => isFalse (by simp)
    | Except.error _, Except.ok _ => isFalse (by simp)

/-- A JS Date value: some integral time value in milliseconds since
1970-01-01T00:00:00Z, or none for an Invalid Date (NaN time value). -/
abbrev JSDate : Type := Option Int

/-- The Date constructor on a finite (integral) millisecond count, the
ECMAScript TimeClip: invalid when the magnitude exceeds 8.64e15 ms,
otherwise that time value. -/
def newDate (ms : Int) : JSDate :=
  if ms < -8640000000000000 ∨ 8640000000000000 < ms then none
  else some ms

/-- excelDateToJSDate (index.ts lines 98-100): new Date((serial - 25569) *
86400 * 1000). -/
def excelDateToJSDate (serial : Int) : JSDate :=
  newDate ((serial - 25569) * 86400 * 1000)

/-- Gregorian calendar date (year, month 1-12, day 1-31) of a day count
relative to 1970-01-01 (Hinnant civil-from-days, floor division). -/
def civilFromDays (z0 : Int) : Int × Int × Int :=
  let z := z0 + 719468
  let era := Int.fdiv z 146097
  let doe := z - era * 146097
  let yoe := Int.fdiv (doe - Int.fdiv doe 1460 + Int.fdiv doe 36524 - Int.fdiv doe 146096) 365
  let y := yoe + era * 400
  let doy := doe - (365 * yoe + Int.fdiv yoe 4 - Int.fdiv yoe 100)
  let mp := Int.fdiv (5 * doy + 2) 153
  let d := doy - Int.fdiv (153 * mp + 2) 5 + 1
  let m := mp + (if mp < 3 then 3 else -9)
  (y + (if m ≤ 2 then 1 else 0), m, d)

/-- ECMAScript Day(t): floor of the time value divided by ms-per-day. -/
def dayNumber (t : Int) : Int :=
  Int.fdiv t 86400000

/-- ECMAScript WeekDay(t): 0 = Sunday .. 6 = Saturday. -/
def weekdayFromTime (t : Int) : Int :=
  Int.emod (dayNumber t + 4) 7

/-- ECMAScript HourFromTime(t). -/
def hourFromTime (t : Int) : Int :=
  Int.emod (Int.fdiv t 3600000) 24

/-- ECMAScript MinFromTime(t). -/
def minFromTime (t : Int) : Int :=
  Int.emod (Int.fdiv t 60000) 60

/-- ECMAScript SecFromTime(t). -/
def secFromTime (t : Int) : Int :=
  Int.emod (Int.fdiv t 1000) 60

/-- ECMAScript msFromTime(t). -/
def msFromTime (t : Int) : Int :=
  Int.emod t 1000

/-- Local time of a UTC time value under a fixed offset tz in minutes. -/
def localTime (tz t : Int) : Int :=
  t + tz * 60000

/-- Date.prototype.getFullYear under the fixed offset tz. -/
def getFullYear (tz t : Int) : Int :=
  (civilFromDays (dayNumber (localTime tz t))).1

/-- Date.prototype.getMonth (0-based) under the fixed offset tz. -/
def getMonth (tz t : Int) : Int :=
  (civilFromDays (dayNumber (localTime tz t))).2.1 - 1

/-- Date.prototype.getDate (day of month) under the fixed offset tz. -/
def getDate (tz t : Int) : Int :=
  (civilFromDays (dayNumber (localTime tz t))).2.2

/-- Date.prototype.getDay (0 = Sunday) under the fixed offset tz. -/
def getDay (tz t : Int) : Int :=
  weekdayFromTime (localTime tz t)

/-- Date.prototype.getHours under the fixed offset tz. -/
def getHours (tz t : Int) : Int :=
  hourFromTime (localTime tz t)

/-- Left-pad the decimal digits of a natural number with zeros. -/
def padNum (w : Nat) (n : Nat) : String :=
  let s := toString n
  String.mk (List.replicate (w - s.length) '0') ++ s

/-- Left-pad a (non-negative) integer component to the given width. -/
def padInt (w : Nat) (n : Int) : String :=
  padNum w n.toNat

/-- ISO-8601 year component, with expanded six-digit signed years outside
0000-9999 as in ECMAScript. -/
def isoYearStr (y : Int) : String :=
  if 0 ≤ y ∧ y ≤ 9999 then padInt 4 y
  else if y < 0 then "-" ++ padNum 6 (-y).toNat
  else "+" ++ padNum 6 y.toNat

/-- Date.prototype.toISOString on a valid time value (always UTC). -/
def toISOString (t : Int) : String :=
  let c := civilFromDays (dayNumber t)
  isoYearStr c.1 ++ "-" ++ padInt 2 c.2.1 ++ "-" ++ padInt 2 c.2.2 ++ "T" ++
    padInt 2 (hourFromTime t) ++ ":" ++ padInt 2 (minFromTime t) ++ ":" ++
    padInt 2 (secFromTime t) ++ "." ++ padInt 3 (msFromTime t) ++ "Z"

/-- The temporal-enrichment map body of the upload handler (index.ts lines
149-168).  pd is the platform date-string parse used by new Date(string);
tz the fixed local-time offset in minutes.  Field evaluation follows the
object-literal order: toISOString on an Invalid Date throws (RangeError
"Invalid time value") before any other derived field is computed, so an
unparseable date string aborts the whole map. -/
def deriveTemporal (pd : String → JSDate) (tz : Int) (trip : Row) : Except String Row :=
  let val := objGet trip "Trip_Date_and_Time"
  let tripDate : Option JSDate :=
    match val with
    | JVal.vundef => none
    | JVal.vnull => none
    | JVal.vnum q => some (excelDateToJSDate q)
    | JVal.vstr s => some (pd s)
  match tripDate with
  | none =>
    Except.ok (objSet (objSet (objSet (objSet (objSet (objSet (objSet trip
      "TripDateISO" JVal.vnull)
      "TripEpoch" JVal.vnull)
      "TripYear" JVal.vnull)
      "TripMonth" JVal.vnull)
      "TripDay" JVal.vnull)
      "TripDayOfWeek" JVal.vnull)
      "TripHour" JVal.vnull)
  | some none => Except.error "Invalid time value"
  | some (some t) =>
    Except.ok (objSet (objSet (objSet (objSet (objSet (objSet (objSet trip
      "TripDateISO" (jsOr (JVal.vstr (toISOString t))))
      "TripEpoch" (jsOr (JVal.vnum t)))
      "TripYear" (jsOr (JVal.vnum (getFullYear tz t))))
      "TripMonth" (JVal.vnum (getMonth tz t + 1)))
      "TripDay" (jsOr (JVal.vnum (getDate tz t))))
      "TripDayOfWeek" (jsOr (JVal.vnum (getDay tz t))))
      "TripHour" (jsOr (JVal.vnum (getHours tz t))))

/-- JS template/string conversion of the modelled scalar values, as used in
the embedding-input text of createVectorStore. -/
def jvalToString : JVal → String
  | JVal.vnull => "null"
  | JVal.vundef => "undefined"
  | JVal.vnum n => toString n
  | JVal.vstr s => s

/-- A document of the in-memory vector store: the embedding-input text and
the original enriched row kept as metadata.  The embedding vector itself is
provider-side and not modelled. -/
structure IndexDoc where
  pageContent : String
  metadata : Row
deriving DecidableEq

/-- createVectorStore (index.ts lines 80-97): one document per row, whose
text joins every field with a non-null, non-undefined value as
key-colon-value, separated by semicolons, in insertion order.  (The
rowWithDate copy in the source re-assigns TripDateISO to its own value and
has no effect.) -/
def createVectorStore (data : List Row) : List IndexDoc :=
  data.map (fun row =>
    let text := String.intercalate "; "
      ((row.filter (fun p => p.2 ≠ JVal.vundef ∧ p.2 ≠ JVal.vnull)).map
        (fun p => p.1 ++ ": " ++ jvalToString p.2))
    IndexDoc.mk text row)

/-- A parsed workbook: named sheets, each already converted to its row list
(XLSX.read and sheet_to_json are the external parsing library). -/
structure Workbook where
  sheets : List (String × List Row)
deriving DecidableEq

/-- ASCII lowercase of one character (the sheet names compared by the code
are ASCII; full Unicode case mapping is not modelled). -/
def lowerChar (c : Char) : Char :=
  if 65 ≤ c.toNat ∧ c.toNat ≤ 90 then Char.ofNat (c.toNat + 32) else c

/-- String.prototype.toLowerCase restricted to ASCII. -/
def lowerString (s : String) : String :=
  String.mk (s.data.map lowerChar)

/-- readSheetCaseInsensitive (index.ts lines 26-33): rows of the first sheet
whose name matches case-insensitively, null when none does. -/
def readSheetCaseInsensitive (wb : Workbook) (name : String) : Option (List Row) :=
  let lname := lowerString name
  (wb.sheets.find? (fun s => lowerString s.1 == lname)).map (fun s => s.2)

/-- The sheet name of the check-in sheet, spelled with its apostrophe. -/
def checkedInSheetName : String :=
  "Checked in User ID" ++ (Char.ofNat 39).toString ++ "s"

/-- The process-wide mutable state touched by the upload handler: the
enrichedData array and the vector-store index. -/
structure ServerState where
  enrichedData : List Row
  vectorStore : Option (List IndexDoc)
deriving DecidableEq

/-- Shape of the upload-route HTTP response. -/
structure UploadResponse where
  status : Nat
  message : Option String
  rows : Option Nat
  error : Option String
deriving DecidableEq

/-- The /upload handler (index.ts lines 102-181) as a state transition.  A
missing file is a 400.  Otherwise the three sheets are read
case-insensitively and merged; a throw inside mergeSheets (null sheet) is
caught before enrichedData is reassigned.  On merge success enrichedData is
reassigned to the merged rows FIRST; only then is the temporal map run, so
a throw there (unparseable date string) is caught with the new merged rows
already installed while the vector store still holds the previous index.
On full success both enrichedData and the vector store are replaced and the
response reports the row count. -/
def uploadStep (pd : String → JSDate) (tz : Int) (st : ServerState)
    (file : Option Workbook) : ServerState × UploadResponse :=
  match file with
  | none => (st, UploadResponse.mk 400 none none (some "No file uploaded"))
  | some wb =>
    match mergeSheets (readSheetCaseInsensitive wb "Trip Data")
        (readSheetCaseInsensitive wb checkedInSheetName)
        (readSheetCaseInsensitive wb "Customer Demographics") with
    | Except.error e => (st, UploadResponse.mk 500 none none (some e))
    | Except.ok merged =>
      match merged.mapM (deriveTemporal pd tz) with
      | Except.error e =>
        (ServerState.mk merged st.vectorStore,
         UploadResponse.mk 500 none none (some e))
      | Except.ok mapped =>
        (ServerState.mk mapped (some (createVectorStore mapped)),
         UploadResponse.mk 200 (some "File processed and embeddings created")
           (some mapped.length) none)

/-- Shape of the chat-route HTTP response. -/
structure ChatResponse where
  status : Nat
  answer : Option String
  error : Option String
deriving DecidableEq

/-- The /chat2 handler (index.ts lines 284-378).  The not-ready check on the
vector store runs first; then question and userId are tested for JS
truthiness; then retrieval, prompt assembly and the model call run inside
the try block, abstracted as modelCall, whose failure is caught and mapped
to the generic 500. -/
def chat2Step (st : ServerState) (question userId : JVal)
    (modelCall : Except String String) : ChatResponse :=
  match st.vectorStore with
  | none => ChatResponse.mk 400 none (some "No data uploaded yet")
  | some _ =>
    if !truthy question || !truthy userId then
      ChatResponse.mk 400 none (some "Both question and userId are required")
    else
      match modelCall with
      | Except.error _ => ChatResponse.mk 500 none (some "Something went wrong")
      | Except.ok ans => ChatResponse.mk 200 (some ans) none

/-
Concrete fixtures used by the counterexamples and witnesses below.
dateParseFail is a concrete instance of the platform date-string parse on
which every string is unparseable (an Invalid Date), as "13/45/2023" is for
the actual parser.
-/

/-- A concrete date-string parse on which every string fails to parse. -/
def dateParseFail : String → JSDate := fun _ => none

/-- The server state at process start: empty enrichedData, no index. -/
def emptyState : ServerState := ServerState.mk [] none

/-- A well-formed workbook: one trip dated serial 44927 (2023-01-01T00:00Z,
a Sunday), one matching check-in, one matching demographic row. -/
def wbGood : Workbook := Workbook.mk [
  ("Trip Data", [[("Trip ID", JVal.vstr "T1"), ("Trip Date and Time", JVal.vnum 44927)]]),
  (checkedInSheetName, [[("Trip_ID", JVal.vstr "T1"), ("User_ID", JVal.vstr "U1")]]),
  ("Customer Demographics", [[("User_ID", JVal.vstr "U1"), ("Age", JVal.vnum 30)]])]

/-- A workbook whose single trip has an unparseable date string. -/
def wbBadDate : Workbook := Workbook.mk [
  ("Trip Data", [[("Trip_ID", JVal.vstr "T2"), ("Trip_Date_and_Time", JVal.vstr "13/45/2023")]]),
  (checkedInSheetName, []),
  ("Customer Demographics", [])]

/-- A workbook lacking the Customer Demographics sheet (trip-data sheet name
in lower case to exercise the case-insensitive match). -/
def wbNoDemo : Workbook := Workbook.mk [
  ("trip data", [[("Trip_ID", JVal.vstr "T1")]]),
  (checkedInSheetName, [])]

/-- The seven derived temporal field names, in object-literal order. -/
def sevenFields : List String :=
  ["TripDateISO", "TripEpoch", "TripYear", "TripMonth", "TripDay",
   "TripDayOfWeek", "TripHour"]

/-- All seven derived fields of a row are null. -/
def allSevenNull (r : Row) : Bool :=
  sevenFields.all (fun k => strictEq (objGet r k) JVal.vnull)

/-- All seven derived fields of a row are non-null. -/
def allSevenNonNull (r : Row) : Bool :=
  sevenFields.all (fun k => !strictEq (objGet r k) JVal.vnull)

/-
General lemmas about the object model and the key normalization.
-/

theorem objGet_objSet_self (r : Row) (k : String) (v : JVal) :
    objGet (objSet r k v) k = v := by
  induction r with
  | nil => simp [objSet, objGet]
  | cons p r ih =>
    obtain ⟨k2, v2⟩ := p
    by_cases h : k2 = k
    · simp [objSet, objGet, h]
    · simp [objSet, objGet, h, ih]

theorem objGet_objSet_ne (r : Row) (k k2 : String) (v : JVal) (h : k2 ≠ k) :
    objGet (objSet r k v) k2 = objGet r k2 := by
  induction r with
  | nil => simp [objSet, objGet, Ne.symm h]
  | cons p r ih =>
    obtain ⟨k3, v3⟩ := p
    by_cases h3 : k3 = k
    · subst h3
      simp [objSet, objGet, Ne.symm h]
    · by_cases h2 : k3 = k2
      · simp [objSet, objGet, h3, h2, h]
      · simp [objSet, objGet, h3, h2, ih]

theorem mem_objSet (r : Row) (k : String) (v : JVal) (p : String × JVal)
    (h : p ∈ objSet r k v) : p ∈ r ∨ p.1 = k := by
  induction r with
  | nil =>
    simp [objSet] at h
    subst h
    simp
  | cons q r ih =>
    obtain ⟨k2, v2⟩ := q
    by_cases h2 : k2 = k
    · simp [objSet, h2] at h
      rcases h with h | h
      · subst h
        simp
      · exact Or.inl (List.mem_cons_of_mem _ h)
    · simp [objSet, h2] at h
      rcases h with h | h
      · subst h
        simp
      · rcases ih h with h3 | h3
        · exact Or.inl (List.mem_cons_of_mem _ h3)
        · exact Or.inr h3

theorem collapseGo_not_ws (l : List Char) :
    ∀ (b : Bool), ∀ c ∈ collapseGo b l, isJsWS c = false := by
  induction l with
  | nil => intro b c hc; simp [collapseGo] at hc
  | cons a l ih =>
    intro b c hc
    by_cases ha : isJsWS a
    · cases b with
      | true =>
        simp [collapseGo, ha] at hc
        exact ih true c hc
      | false =>
        simp [collapseGo, ha] at hc
        rcases hc with hc | hc
        · subst hc; decide
        · exact ih true c hc
    · simp [collapseGo, ha] at hc
      rcases hc with hc | hc
      · subst hc
        simp [ha]
      · exact ih false c hc

theorem collapseGo_fixed (l : List Char) (hl : ∀ c ∈ l, isJsWS c = false) :
    ∀ b : Bool, collapseGo b l = l := by
  induction l with
  | nil => intro b; simp [collapseGo]
  | cons a l ih =>
    intro b
    have ha : isJsWS a = false := hl a (by simp)
    simp [collapseGo, ha]
    exact ih (fun c hc => hl c (List.mem_cons_of_mem _ hc)) false

theorem dropWhile_fixed (l : List Char) (hl : ∀ c ∈ l, isJsWS c = false) :
    l.dropWhile isJsWS = l := by
  cases l with
  | nil => simp
  | cons a l =>
    have ha : isJsWS a = false := hl a (by simp)
    simp [List.dropWhile_cons, ha]

theorem trimChars_fixed (l : List Char) (hl : ∀ c ∈ l, isJsWS c = false) :
    trimChars l = l := by
  unfold trimChars
  rw [dropWhile_fixed l hl]
  rw [dropWhile_fixed l.reverse (fun c hc => hl c (List.mem_reverse.mp hc))]
  exact List.reverse_reverse l

theorem stdKey_idem (k : String) : stdKey (stdKey k) = stdKey k := by
  have h : ∀ c ∈ collapseGo false (trimChars k.data), isJsWS c = false :=
    collapseGo_not_ws (trimChars k.data) false
  show stdKey (String.mk (collapseWS (trimChars k.data))) = _
  unfold stdKey collapseWS
  rw [show (String.mk (collapseGo false (trimChars k.data))).data
        = collapseGo false (trimChars k.data) from rfl]
  rw [trimChars_fixed _ h, collapseGo_fixed _ h]

/-- Index i of the merge output, expressed through the two enrichment
stages: the i-th standardized trip row gets checkedInUserID attached, then
Age looked up from that attached value. -/
theorem mergeRows_getElem (ts cs ds : List Row) (i : Nat) (trip : Row)
    (h : (standardizeKeys ts)[i]? = some trip) :
    (mergeRows ts cs ds)[i]? =
      some (objSet (objSet trip "checkedInUserID" (firstCheckinUser (standardizeKeys cs) trip))
        "Age" (firstDemoAge (standardizeKeys ds) (firstCheckinUser (standardizeKeys cs) trip))) := by
  unfold mergeRows
  rw [List.map_map, List.getElem?_map, h]
  simp only [Option.map_some', Function.comp_apply]
  rw [objGet_objSet_self]

/-- The merge output evaluated through getD, on an index that exists. -/
theorem mergeRows_getD (ts cs ds : List Row) (i : Nat) (trip : Row)
    (h : (standardizeKeys ts)[i]? = some trip) :
    (mergeRows ts cs ds).getD i [] =
      objSet (objSet trip "checkedInUserID" (firstCheckinUser (standardizeKeys cs) trip))
        "Age" (firstDemoAge (standardizeKeys ds) (firstCheckinUser (standardizeKeys cs) trip)) := by
  rw [List.getD_eq_getElem?_getD, mergeRows_getElem ts cs ds i trip h]
  rfl

/-- C5: for every trip row, merge attaches checkedInUserID from the first
check-in row (in sheet order) whose Trip_ID strictly equals the trip
Trip_ID, or null if none exists; it then attaches Age from the first
demographic row whose User_ID strictly equals that checkedInUserID, or
null; and a null checkedInUserID matches no demographic row (given that no
demographic row carries a literal null User_ID, which sheet parsing never
produces). -/
theorem merge_first_match_semantics (ts cs ds : List Row) (i : Nat) (trip : Row)
    (h : (standardizeKeys ts)[i]? = some trip) :
    objGet ((mergeRows ts cs ds).getD i []) "checkedInUserID"
        = firstCheckinUser (standardizeKeys cs) trip ∧
    objGet ((mergeRows ts cs ds).getD i []) "Age"
        = firstDemoAge (standardizeKeys ds) (firstCheckinUser (standardizeKeys cs) trip) ∧
    (firstCheckinUser (standardizeKeys cs) trip = JVal.vnull →
      (∀ d ∈ standardizeKeys ds, objGet d "User_ID" ≠ JVal.vnull) →
      objGet ((mergeRows ts cs ds).getD i []) "Age" = JVal.vnull) := by
  rw [mergeRows_getD ts cs ds i trip h]
  refine ⟨?_, ?_, ?_⟩
  · rw [objGet_objSet_ne _ _ _ _ (by decide), objGet_objSet_self]
  · rw [objGet_objSet_self]
  · intro hnull hall
    rw [objGet_objSet_self]
    unfold firstDemoAge
    rw [hnull]
    have hfind : (standardizeKeys ds).find?
        (fun d => strictEq (objGet d "User_ID") JVal.vnull) = none := by
      rw [List.find?_eq_none]
      intro d hd
      simp [strictEq, hall d hd]
    rw [hfind]

/-- C5 witness: a trip with no matching check-in gets a null checkedInUserID
and, the demographic sheet having no null User_ID, a null Age. -/
theorem merge_first_match_semantics_witness :
    objGet ((mergeRows [[("Trip_ID", JVal.vstr "T9")]]
        [[("Trip_ID", JVal.vstr "T1"), ("User_ID", JVal.vstr "U1")]]
        [[("User_ID", JVal.vstr "U1"), ("Age", JVal.vnum 30)]]).getD 0 []) "Age"
      = JVal.vnull :=
  (merge_first_match_semantics [[("Trip_ID", JVal.vstr "T9")]]
      [[("Trip_ID", JVal.vstr "T1"), ("User_ID", JVal.vstr "U1")]]
      [[("User_ID", JVal.vstr "U1"), ("Age", JVal.vnum 30)]]
      0 [("Trip_ID", JVal.vstr "T9")] (by decide)).2.2 (by decide) (by decide)

/-- C9: merge is a frame-preserving enrichment: every standardized field of
the input trip row other than checkedInUserID and Age keeps its original
value in the merged output, the output row contains no bindings beyond the
input fields plus those two, and the output has one row per trip row. -/
theorem merge_frame_preservation (ts cs ds : List Row) (i : Nat) (trip : Row)
    (h : (standardizeKeys ts)[i]? = some trip) :
    (mergeRows ts cs ds).length = ts.length ∧
    (∀ k, k ≠ "checkedInUserID" → k ≠ "Age" →
      objGet ((mergeRows ts cs ds).getD i []) k = objGet trip k) ∧
    (∀ p ∈ (mergeRows ts cs ds).getD i [], p ∈ trip ∨ p.1 = "checkedInUserID" ∨ p.1 = "Age") := by
  refine ⟨?_, ?_, ?_⟩
  · unfold mergeRows standardizeKeys
    simp
  · intro k hk1 hk2
    rw [mergeRows_getD ts cs ds i trip h]
    rw [objGet_objSet_ne _ _ _ _ hk2, objGet_objSet_ne _ _ _ _ hk1]
  · intro p hp
    rw [mergeRows_getD ts cs ds i trip h] at hp
    rcases mem_objSet _ _ _ _ hp with h1 | h1
    · rcases mem_objSet _ _ _ _ h1 with h2 | h2
      · exact Or.inl h2
      · exact Or.inr (Or.inl h2)
    · exact Or.inr (Or.inr h1)

/-- C9 witness: on a concrete merge, the Trip_ID field survives unchanged
into the merged row. -/
theorem merge_frame_preservation_witness :
    objGet ((mergeRows [[("Trip ID", JVal.vstr "T1"), ("Total Passengers", JVal.vnum 4)]]
        [[("Trip_ID", JVal.vstr "T1"), ("User_ID", JVal.vstr "U1")]]
        [[("User_ID", JVal.vstr "U1"), ("Age", JVal.vnum 30)]]).getD 0 []) "Total_Passengers"
      = JVal.vnum 4 := by
  have h := (merge_frame_preservation
      [[("Trip ID", JVal.vstr "T1"), ("Total Passengers", JVal.vnum 4)]]
      [[("Trip_ID", JVal.vstr "T1"), ("User_ID", JVal.vstr "U1")]]
      [[("User_ID", JVal.vstr "U1"), ("Age", JVal.vnum 30)]]
      0 [("Trip_ID", JVal.vstr "T1"), ("Total_Passengers", JVal.vnum 4)] (by decide)).2.1
      "Total_Passengers" (by decide) (by decide)
  rw [h]
  decide

/-- C8: key standardization sends both the compact and the padded spellings
of a column name to the canonical underscore-joined key, it acts the same
way inside standardizeKeys, and it is idempotent. -/
theorem standardize_idempotent :
    stdKey "Trip ID" = "Trip_ID" ∧
    stdKey " Trip  ID " = "Trip_ID" ∧
    standardizeKeys [[(" Trip  ID ", JVal.vstr "x")]] = [[("Trip_ID", JVal.vstr "x")]] ∧
    ∀ k : String, stdKey (stdKey k) = stdKey k :=
  ⟨by decide, by decide, by decide, stdKey_idem⟩

/-- C6: the numeric-date conversion sends serial 25569 to the Date with
time value 0, whose ISO rendering is 1970-01-01T00:00:00.000Z, and sends a
general serial s to the Date built from (s - 25569) * 86400000
milliseconds. -/
theorem excelDate_epoch_formula :
    excelDateToJSDate 25569 = some 0 ∧
    toISOString 0 = "1970-01-01T00:00:00.000Z" ∧
    ∀ s : Int, excelDateToJSDate s = newDate ((s - 25569) * 86400000) := by
  refine ⟨by decide, by decide, ?_⟩
  intro s
  unfold excelDateToJSDate
  congr 1
  ring

/-- C7: the chat route returns 400 with the no-data message when no index
exists; 400 with the both-required message when the index exists but
question or userId is absent; and 500 with the generic message when the
preconditions pass and the retrieval/model call fails. -/
theorem chat2_error_contract (st : ServerState) (q u : JVal) (mc : Except String String) :
    (st.vectorStore = none →
      chat2Step st q u mc = ChatResponse.mk 400 none (some "No data uploaded yet")) ∧
    (st.vectorStore ≠ none → (q = JVal.vundef ∨ u = JVal.vundef) →
      chat2Step st q u mc = ChatResponse.mk 400 none (some "Both question and userId are required")) ∧
    (st.vectorStore ≠ none → truthy q = true → truthy u = true →
      ∀ e, mc = Except.error e →
        chat2Step st q u mc = ChatResponse.mk 500 none (some "Something went wrong")) := by
  obtain ⟨ed, vs⟩ := st
  cases vs with
  | none =>
    refine ⟨fun _ => rfl, ?_, ?_⟩
    · intro hvs
      simp at hvs
    · intro hvs
      simp at hvs
  | some docs =>
    refine ⟨?_, ?_, ?_⟩
    · intro hvs
      simp at hvs
    · intro _ habs
      rcases habs with h | h <;> subst h <;> simp [chat2Step, truthy]
    · intro _ hq hu e hmc
      subst hmc
      simp [chat2Step, hq, hu]

/-- C7 witness: the three branches at concrete states and bodies. -/
theorem chat2_error_contract_witness :
    chat2Step emptyState (JVal.vstr "q") (JVal.vstr "u") (Except.ok "a")
      = ChatResponse.mk 400 none (some "No data uploaded yet") ∧
    chat2Step (ServerState.mk [] (some [])) JVal.vundef (JVal.vstr "u") (Except.ok "a")
      = ChatResponse.mk 400 none (some "Both question and userId are required") ∧
    chat2Step (ServerState.mk [] (some [])) (JVal.vstr "q") (JVal.vstr "u") (Except.error "boom")
      = ChatResponse.mk 500 none (some "Something went wrong") :=
  ⟨(chat2_error_contract emptyState (JVal.vstr "q") (JVal.vstr "u") (Except.ok "a")).1 rfl,
   (chat2_error_contract (ServerState.mk [] (some [])) JVal.vundef (JVal.vstr "u")
      (Except.ok "a")).2.1 (by decide) (Or.inl rfl),
   (chat2_error_contract (ServerState.mk [] (some [])) (JVal.vstr "q") (JVal.vstr "u")
      (Except.error "boom")).2.2 (by decide) (by decide) (by decide) "boom" rfl⟩

/-- C10: presence of question and userId is decided by JS truthiness, so an
empty string behaves exactly like an absent field; and the not-ready check
precedes the bad-request check, so with no index the no-data error wins
even when fields are missing. -/
theorem chat2_truthiness_and_order (st : ServerState) (q u : JVal) (mc : Except String String) :
    chat2Step st (JVal.vstr "") u mc = chat2Step st JVal.vundef u mc ∧
    chat2Step st q (JVal.vstr "") mc = chat2Step st q JVal.vundef mc ∧
    (st.vectorStore = none →
      chat2Step st q u mc = ChatResponse.mk 400 none (some "No data uploaded yet")) ∧
    (st.vectorStore ≠ none →
      chat2Step st (JVal.vstr "") u mc
        = ChatResponse.mk 400 none (some "Both question and userId are required")) := by
  obtain ⟨ed, vs⟩ := st
  cases vs with
  | none => exact ⟨rfl, rfl, fun _ => rfl, fun hvs => absurd rfl hvs⟩
  | some docs =>
    refine ⟨?_, ?_, ?_, ?_⟩
    · simp [chat2Step, truthy]
    · simp [chat2Step, truthy]
    · intro hvs
      simp at hvs
    · intro _
      simp [chat2Step, truthy]

/-- C10 witness: with no index and both fields missing the no-data error is
returned; with an index an empty-string question is rejected as
bad-request. -/
theorem chat2_truthiness_and_order_witness :
    chat2Step (ServerState.mk [] none) JVal.vundef JVal.vundef (Except.ok "a")
      = ChatResponse.mk 400 none (some "No data uploaded yet") ∧
    chat2Step (ServerState.mk [] (some [])) (JVal.vstr "") (JVal.vstr "u") (Except.ok "a")
      = ChatResponse.mk 400 none (some "Both question and userId are required") :=
  ⟨(chat2_truthiness_and_order (ServerState.mk [] none) JVal.vundef JVal.vundef
      (Except.ok "a")).2.2.1 rfl,
   (chat2_truthiness_and_order (ServerState.mk [] (some [])) JVal.vundef (JVal.vstr "u")
      (Except.ok "a")).2.2.2 (by decide)⟩

/-- The only throw inside deriveTemporal is toISOString on an Invalid Date,
so every error it produces carries that message. -/
theorem deriveTemporal_err_msg (pd : String → JSDate) (tz : Int) (r : Row) (e : String)
    (h : deriveTemporal pd tz r = Except.error e) : e = "Invalid time value" := by
  unfold deriveTemporal at h
  cases hv : objGet r "Trip_Date_and_Time" with
  | vnull => simp [hv] at h
  | vundef => simp [hv] at h
  | vnum q =>
    cases hd : excelDateToJSDate q with
    | none => simp [hv, hd] at h; exact h.symm
    | some t => simp [hv, hd] at h
  | vstr s =>
    cases hd : pd s with
    | none => simp [hv, hd] at h; exact h.symm
    | some t => simp [hv, hd] at h

/-- If some row of the list makes deriveTemporal throw, the whole temporal
map throws with that message. -/
theorem mapM_deriveTemporal_err (pd : String → JSDate) (tz : Int) (l : List Row) (x : Row)
    (hx : x ∈ l) (hfx : deriveTemporal pd tz x = Except.error "Invalid time value") :
    l.mapM (deriveTemporal pd tz) = Except.error "Invalid time value" := by
  induction l with
  | nil => simp at hx
  | cons a l ih =>
    rw [List.mapM_cons]
    rcases List.mem_cons.mp hx with h | h
    · subst h
      rw [hfx]
      rfl
    · cases ha : deriveTemporal pd tz a with
      | error e =>
        have he := deriveTemporal_err_msg pd tz a e ha
        subst he
        rfl
      | ok r =>
        rw [ih h]
        rfl

/-- A null argument in any of the three positions makes mergeSheets throw
the TypeError. -/
theorem mergeSheets_none (a b c : Option (List Row))
    (h : a = none ∨ b = none ∨ c = none) :
    mergeSheets a b c = Except.error nullMapMsg := by
  rcases h with h | h | h
  · subst h; rfl
  · subst h; cases a <;> rfl
  · subst h; cases a <;> cases b <;> rfl

/-- C1: evaluation at the failing input.  Uploading wbGood succeeds with
status 200, yet its single stored record mixes null and non-null derived
fields: the trip falls on a Sunday at local midnight, getDay() and
getHours() return 0, and the x-or-null idiom turns both into null while
TripDateISO, TripEpoch, TripYear, TripMonth and TripDay stay non-null.
This contradicts the all-or-none invariant and the inline comment
0=Sun, 6=Sat, which treats 0 as a stored value. -/
theorem mixed_derived_fields_eval :
    (uploadStep dateParseFail 0 emptyState (some wbGood)).2.status = 200 ∧
    objGet ((uploadStep dateParseFail 0 emptyState (some wbGood)).1.enrichedData.getD 0 [])
        "TripDayOfWeek" = JVal.vnull ∧
    objGet ((uploadStep dateParseFail 0 emptyState (some wbGood)).1.enrichedData.getD 0 [])
        "TripHour" = JVal.vnull ∧
    objGet ((uploadStep dateParseFail 0 emptyState (some wbGood)).1.enrichedData.getD 0 [])
        "TripYear" = JVal.vnum 2023 ∧
    objGet ((uploadStep dateParseFail 0 emptyState (some wbGood)).1.enrichedData.getD 0 [])
        "TripDateISO" = JVal.vstr "2023-01-01T00:00:00.000Z" ∧
    allSevenNull ((uploadStep dateParseFail 0 emptyState (some wbGood)).1.enrichedData.getD 0 [])
        = false ∧
    allSevenNonNull ((uploadStep dateParseFail 0 emptyState (some wbGood)).1.enrichedData.getD 0 [])
        = false := by
  decide

/-- C2 (amended): a trip whose raw Trip_Date_and_Time is a string that
fails date parsing makes toISOString throw on the Invalid Date, so the
temporal map aborts and the upload responds 500 with the error surfaced;
no record with null derived fields is produced for it. -/
theorem badDateString_throws (pd : String → JSDate) (tz : Int) (st : ServerState)
    (wb : Workbook) (ts cs ds : List Row) (trip : Row) (s : String)
    (h1 : readSheetCaseInsensitive wb "Trip Data" = some ts)
    (h2 : readSheetCaseInsensitive wb checkedInSheetName = some cs)
    (h3 : readSheetCaseInsensitive wb "Customer Demographics" = some ds)
    (h4 : trip ∈ mergeRows ts cs ds)
    (hv : objGet trip "Trip_Date_and_Time" = JVal.vstr s)
    (hp : pd s = none) :
    deriveTemporal pd tz trip = Except.error "Invalid time value" ∧
    (uploadStep pd tz st (some wb)).2.status = 500 ∧
    (uploadStep pd tz st (some wb)).2.error = some "Invalid time value" := by
  have hd : deriveTemporal pd tz trip = Except.error "Invalid time value" := by
    unfold deriveTemporal
    simp [hv, hp]
  have hm : (mergeRows ts cs ds).mapM (deriveTemporal pd tz)
      = Except.error "Invalid time value" :=
    mapM_deriveTemporal_err pd tz _ trip h4 hd
  have hms : mergeSheets (readSheetCaseInsensitive wb "Trip Data")
      (readSheetCaseInsensitive wb checkedInSheetName)
      (readSheetCaseInsensitive wb "Customer Demographics")
      = Except.ok (mergeRows ts cs ds) := by
    rw [h1, h2, h3]
    rfl
  have hm2 : List.mapM.loop (deriveTemporal pd tz) (mergeRows ts cs ds) []
      = Except.error "Invalid time value" := hm
  refine ⟨hd, ?_, ?_⟩ <;> simp [uploadStep, hms, hm, hm2]

/-- C2 counterexample: on the workbook whose trip has the unparseable date
string, the upload fails with status 500 and the surfaced message, rather
than succeeding with null derived fields; the stored row from the partial
mutation has no TripDateISO field at all (undefined, not null). -/
theorem badDateString_upload_fails_cex :
    (uploadStep dateParseFail 0 emptyState (some wbBadDate)).2.status = 500 ∧
    (uploadStep dateParseFail 0 emptyState (some wbBadDate)).2.error
        = some "Invalid time value" ∧
    objGet ((uploadStep dateParseFail 0 emptyState (some wbBadDate)).1.enrichedData.getD 0 [])
        "TripDateISO" = JVal.vundef := by
  decide

/-- C2 witness: the amended theorem applied to the concrete bad-date trip
of wbBadDate. -/
theorem badDateString_throws_witness :
    deriveTemporal dateParseFail 0
        [("Trip_ID", JVal.vstr "T2"), ("Trip_Date_and_Time", JVal.vstr "13/45/2023"),
         ("checkedInUserID", JVal.vnull), ("Age", JVal.vnull)]
      = Except.error "Invalid time value" :=
  (badDateString_throws dateParseFail 0 emptyState wbBadDate
      [[("Trip_ID", JVal.vstr "T2"), ("Trip_Date_and_Time", JVal.vstr "13/45/2023")]] [] []
      [("Trip_ID", JVal.vstr "T2"), ("Trip_Date_and_Time", JVal.vstr "13/45/2023"),
       ("checkedInUserID", JVal.vnull), ("Age", JVal.vnull)]
      "13/45/2023" (by decide) (by decide) (by decide) (by decide) (by decide) rfl).1

/-- C3 (amended): when any of the three sheets is absent under the
case-insensitive match, readSheetCaseInsensitive yields null, mapping over
it throws the TypeError inside mergeSheets, and the upload responds 500
with the prior state fully retained; no 200 response with null enrichment
fields is produced. -/
theorem missingSheet_upload_500 (pd : String → JSDate) (tz : Int) (st : ServerState)
    (wb : Workbook)
    (h : readSheetCaseInsensitive wb "Trip Data" = none ∨
         readSheetCaseInsensitive wb checkedInSheetName = none ∨
         readSheetCaseInsensitive wb "Customer Demographics" = none) :
    uploadStep pd tz st (some wb) = (st, UploadResponse.mk 500 none none (some nullMapMsg)) := by
  have hm := mergeSheets_none _ _ _ h
  simp [uploadStep, hm]

/-- C3 counterexample: the workbook lacking a Customer Demographics sheet
is rejected with 500 (not accepted with 200 and null Age): no enriched
records are produced at all. -/
theorem missingSheet_cex :
    readSheetCaseInsensitive wbNoDemo "Customer Demographics" = none ∧
    (uploadStep dateParseFail 0 emptyState (some wbNoDemo)).2.status = 500 ∧
    (uploadStep dateParseFail 0 emptyState (some wbNoDemo)).2.status ≠ 200 ∧
    (uploadStep dateParseFail 0 emptyState (some wbNoDemo)).1.enrichedData = [] := by
  decide

/-- C3 witness: the amended theorem applied to wbNoDemo from a non-empty
prior state, which survives unchanged. -/
theorem missingSheet_upload_500_witness :
    uploadStep dateParseFail 0 (ServerState.mk [[("K", JVal.vnum 7)]] (some []))
        (some wbNoDemo)
      = (ServerState.mk [[("K", JVal.vnum 7)]] (some []),
         UploadResponse.mk 500 none none (some nullMapMsg)) :=
  missingSheet_upload_500 dateParseFail 0 (ServerState.mk [[("K", JVal.vnum 7)]] (some []))
    wbNoDemo (Or.inr (Or.inr (by decide)))

/-- C4 (amended): a successful upload fully replaces enrichedData and the
index, with a result independent of the prior state (so after two uploads
only the second one is retrievable); on any error the prior index always
survives; an error thrown inside mergeSheets leaves the whole prior state
untouched; but an error thrown during the temporal map leaves enrichedData
already replaced by the new upload merged rows while the index still holds
the previous documents — the prior enrichedData does NOT survive every
failed upload. -/
theorem upload_replace_semantics (pd : String → JSDate) (tz : Int) (st : ServerState)
    (wb : Workbook) (st2 : ServerState) (r : UploadResponse)
    (h : uploadStep pd tz st (some wb) = (st2, r)) :
    (r.status = 200 → ∀ st3 : ServerState, uploadStep pd tz st3 (some wb) = (st2, r)) ∧
    (r.status ≠ 200 → st2.vectorStore = st.vectorStore) ∧
    (∀ e, mergeSheets (readSheetCaseInsensitive wb "Trip Data")
          (readSheetCaseInsensitive wb checkedInSheetName)
          (readSheetCaseInsensitive wb "Customer Demographics") = Except.error e →
        st2 = st) ∧
    (∀ merged, mergeSheets (readSheetCaseInsensitive wb "Trip Data")
          (readSheetCaseInsensitive wb checkedInSheetName)
          (readSheetCaseInsensitive wb "Customer Demographics") = Except.ok merged →
      ∀ e2, merged.mapM (deriveTemporal pd tz) = Except.error e2 →
        st2.enrichedData = merged ∧ st2.vectorStore = st.vectorStore ∧ r.status = 500) := by
  rcases hms : mergeSheets (readSheetCaseInsensitive wb "Trip Data")
      (readSheetCaseInsensitive wb checkedInSheetName)
      (readSheetCaseInsensitive wb "Customer Demographics") with e | merged
  · simp only [uploadStep, hms, Prod.mk.injEq] at h
    obtain ⟨h1, h2⟩ := h
    subst h1
    subst h2
    refine ⟨?_, ?_, ?_, ?_⟩
    · intro h200
      simp at h200
    · intro _
      rfl
    · intro e2 _
      rfl
    · intro merged hok
      exact absurd hok (by simp)
  · rcases hmm : merged.mapM (deriveTemporal pd tz) with e2 | mapped
    · have hmm2 : List.mapM.loop (deriveTemporal pd tz) merged [] = Except.error e2 := hmm
      simp only [uploadStep, hms, hmm, hmm2, Prod.mk.injEq] at h
      obtain ⟨h1, h2⟩ := h
      subst h1
      subst h2
      refine ⟨?_, ?_, ?_, ?_⟩
      · intro h200
        simp at h200
      · intro _
        rfl
      · intro e3 herr
        exact absurd herr (by simp)
      · intro merged2 hok e3 herr
        have hm2 : merged2 = merged := by
          simpa using hok.symm
        subst hm2
        exact ⟨rfl, rfl, rfl⟩
    · have hmm2 : List.mapM.loop (deriveTemporal pd tz) merged [] = Except.ok mapped := hmm
      simp only [uploadStep, hms, hmm, hmm2, Prod.mk.injEq] at h
      obtain ⟨h1, h2⟩ := h
      subst h1
      subst h2
      refine ⟨?_, ?_, ?_, ?_⟩
      · intro _ st3
        simp only [uploadStep, hms, hmm, hmm2]
      · intro hne
        exact absurd rfl hne
      · intro e3 herr
        exact absurd herr (by simp)
      · intro merged2 hok e3 herr
        have hm2 : merged2 = merged := by
          simpa using hok.symm
        subst hm2
        exact absurd (hmm.symm.trans herr) (by simp)

/-- C4 counterexample: a successful upload of wbGood followed by a failing
upload of wbBadDate: the second response is 500, the index still holds the
first upload documents, but enrichedData has been replaced by the second
upload merged rows — the prior enrichedData did not remain unchanged. -/
theorem upload_partial_state_cex :
    (uploadStep dateParseFail 0 emptyState (some wbGood)).2.status = 200 ∧
    (uploadStep dateParseFail 0
        (uploadStep dateParseFail 0 emptyState (some wbGood)).1 (some wbBadDate)).2.status
      = 500 ∧
    (uploadStep dateParseFail 0
        (uploadStep dateParseFail 0 emptyState (some wbGood)).1 (some wbBadDate)).1.vectorStore
      = (uploadStep dateParseFail 0 emptyState (some wbGood)).1.vectorStore ∧
    (uploadStep dateParseFail 0
        (uploadStep dateParseFail 0 emptyState (some wbGood)).1 (some wbBadDate)).1.enrichedData
      ≠ (uploadStep dateParseFail 0 emptyState (some wbGood)).1.enrichedData := by
  decide

/-- C4 witness: the replace half of the amended theorem at wbGood: the
outcome of a successful upload is independent of the prior state. -/
theorem upload_replace_semantics_witness :
    uploadStep dateParseFail 0 (ServerState.mk [[("Old", JVal.vnum 1)]] (some []))
        (some wbGood)
      = uploadStep dateParseFail 0 emptyState (some wbGood) :=
  (upload_replace_semantics dateParseFail 0 emptyState wbGood
      (uploadStep dateParseFail 0 emptyState (some wbGood)).1
      (uploadStep dateParseFail 0 emptyState (some wbGood)).2 rfl).1 (by decide)
    (ServerState.mk [[("Old", JVal.vnum 1)]] (some []))
